import Mathlib

/-!
# BusMonitor — shallow embedding and verification

A shallow embedding of the fetch/parse/select/render pipeline of
`src/BusMonitor.ino` (ESP32 SEPTA bus ETA monitor), together with theorems
settling the specification claims about it.

Modelling conventions:
* `time_t`, `long` and `int` values are modelled as `Int` (the arithmetic in
  the source never overflows 32 bits for realistic epoch values, and no claim
  concerns overflow).
* The two HTTP requests are modelled by oracles: the outcome of the top-level
  `/trips/` request is a `FetchOutcome`, and the per-trip `/trip-update/`
  request is a function `String → DetailResult` from a trip id to that
  request's outcome.
* The three globals `busDataAvailable`, `nextBusEtaEpoch`, `nextBusMinutes`
  are gathered into the record `ArrivalState`; the mutating functions become
  pure functions returning the new state.
* `std::sort` followed by `.front()` is embedded as `List.insertionSort`
  followed by taking the head: on a totally ordered element type any
  comparison sort returns the same (unique) sorted permutation, and
  `insertionSort` is structurally recursive, hence kernel-computable.
-/

namespace BusMonitor

/-- Trip record decoded from the `/trips/` response
(`trip_id`, `direction_id`, `status`), as read in `processSeptaData`. -/
structure Trip where
  trip_id : String
  direction_id : String
  status : String
deriving DecidableEq

/-- Stop-time record decoded from a `/trip-update/` response
(`stop_id`, `departed`, `eta`), as read in `processSeptaData`. -/
structure StopTime where
  stop_id : String
  departed : Bool
  eta : Int
deriving DecidableEq

/-- The shared global state of the sketch: `busDataAvailable`,
`nextBusEtaEpoch`, `nextBusMinutes` (declared at lines 89–95 of the source). -/
structure ArrivalState where
  busDataAvailable : Bool
  nextBusEtaEpoch : Int
  nextBusMinutes : Int
deriving DecidableEq

/-- Outcome of one per-trip `/trip-update/` HTTP request in
`processSeptaData`: a non-200 HTTP result (`httpCode != HTTP_CODE_OK`),
a JSON deserialization error, or a decoded `stop_times` array. -/
inductive DetailResult where
  | httpFail (code : Int)
  | parseFail
  | ok (stop_times : List StopTime)
deriving DecidableEq

/-- Outcome of the top-level `/trips/` request in `fetchSeptaData`:
Wi-Fi still down after the reconnect attempt, a non-200 HTTP code,
an empty payload, a JSON deserialization error, or a decoded trips array. -/
inductive FetchOutcome where
  | noWifi
  | httpFail (code : Int)
  | emptyBody
  | parseFail
  | ok (trips : List Trip)
deriving DecidableEq

/-- The trip filter of `processSeptaData` (lines 330–332):
`direction == DIRECTION_ID && status != "CANCELED" && status != "NO GPS"`. -/
def tripQualifies (directionId : String) (t : Trip) : Bool :=
  t.direction_id == directionId && t.status != "CANCELED" && t.status != "NO GPS"

/-- The inner stop-times loop of `processSeptaData` (lines 357–375): collect
`eta` of every stop-time with `stop_id == STOP_ID && !departed` and
`eta > nowEpoch`, in list order (`push_back`). -/
def stopTimeETAs (stopId : String) (now : Int) : List StopTime → List Int
  | [] => []
  | st :: rest =>
    if st.stop_id == stopId && !st.departed then
      if st.eta > now then
        st.eta :: stopTimeETAs stopId now rest
      else
        stopTimeETAs stopId now rest
    else
      stopTimeETAs stopId now rest

/-- The outer trips loop of `processSeptaData` (lines 324–387): for each trip
passing `tripQualifies`, issue the detail request; on a decoded body collect
that trip's candidate etas, on a per-trip HTTP or parse failure skip the trip
and continue; the collected etas accumulate into `allETAs`. -/
def collectETAs (directionId stopId : String) (now : Int)
    (detail : String → DetailResult) : List Trip → List Int
  | [] => []
  | t :: rest =>
    if tripQualifies directionId t then
      match detail t.trip_id with
      | DetailResult.ok stop_times =>
          stopTimeETAs stopId now stop_times ++
            collectETAs directionId stopId now detail rest
      | DetailResult.httpFail _ =>
          collectETAs directionId stopId now detail rest
      | DetailResult.parseFail =>
          collectETAs directionId stopId now detail rest
    else
      collectETAs directionId stopId now detail rest

/-- The trip ids for which `processSeptaData` issues a `/trip-update/`
request: exactly the trips passing `tripQualifies`, in list order
(the `http.GET()` at line 346 sits inside the `if` at lines 330–332). -/
def requestedTrips (directionId : String) : List Trip → List String
  | [] => []
  | t :: rest =>
    if tripQualifies directionId t then
      t.trip_id :: requestedTrips directionId rest
    else
      requestedTrips directionId rest

/-- The triple written on every unavailable/failure path:
`busDataAvailable = false`, `nextBusEtaEpoch = 0`, `nextBusMinutes = -1`. -/
def unavailableState : ArrivalState := ⟨false, 0, -1⟩

/-- The initial values of the globals (lines 89–95):
`false`, `0`, `-1`. -/
def initialState : ArrivalState := ⟨false, 0, -1⟩

/-- `processSeptaData` (lines 307–438) as a pure function: collect `allETAs`;
if non-empty, sort ascending and take the front as `soonest`, compute
`soonestMinutes = (soonest - nowEpoch + 59) / 60` and publish
`(true, soonest, soonestMinutes)`, returning `soonest`; otherwise publish
`(false, 0, -1)` and return `0`. The result pair is
(new global state, returned `time_t`). -/
def processSeptaData (directionId stopId : String) (now : Int)
    (detail : String → DetailResult) (trips : List Trip) : ArrivalState × Int :=
  match List.insertionSort (fun a b => a ≤ b)
      (collectETAs directionId stopId now detail trips) with
  | [] => (unavailableState, 0)
  | soonest :: _ =>
      let soonestMinutes := (soonest - now + 59) / 60
      (⟨true, soonest, soonestMinutes⟩, soonest)

/-- `fetchSeptaData` (lines 237–304) as a pure state transformer: on a
Wi-Fi failure (after the reconnect attempt), a non-200 HTTP code, an empty
payload, or a JSON parse error, the globals are overwritten with the
unavailable triple; on a decoded body they are overwritten by
`processSeptaData`. The previous state is never consulted. -/
def fetchSeptaData (directionId stopId : String) (now : Int)
    (detail : String → DetailResult) (outcome : FetchOutcome)
    (prev : ArrivalState) : ArrivalState :=
  match outcome with
  | FetchOutcome.noWifi => unavailableState
  | FetchOutcome.httpFail _ => unavailableState
  | FetchOutcome.emptyBody => unavailableState
  | FetchOutcome.parseFail => unavailableState
  | FetchOutcome.ok trips => (processSeptaData directionId stopId now detail trips).1

/-- `snprintf` with format `"%02d"`: the decimal representation,
left-padded with `'0'` to a minimum width of 2. -/
def pad2 (n : Int) : String :=
  let s := toString n
  if s.length < 2 then "0" ++ s else s

/-- `updateDisplay` (lines 200–233) as a pure function from the shared state
and the current epoch time to the drawn string: `"--:--"` unless
`busDataAvailable && nextBusEtaEpoch > 0`; otherwise
`delta = nextBusEtaEpoch - now` clamped below to 0, `mins = delta / 60`,
`secs = delta % 60`, clamped to `99:59` when `mins > 99`, formatted
`"%02d:%02d"`. -/
def updateDisplay (st : ArrivalState) (now : Int) : String :=
  if st.busDataAvailable && decide (st.nextBusEtaEpoch > 0) then
    let delta0 := st.nextBusEtaEpoch - now
    let delta := if delta0 < 0 then 0 else delta0
    let mins := delta / 60
    let secs := delta % 60
    if mins > 99 then
      pad2 99 ++ ":" ++ pad2 59
    else
      pad2 mins ++ ":" ++ pad2 secs
  else
    "--:--"

/-- Modelled from the spec (§4.2 Countdown Renderer), for comparison with
`updateDisplay`: if `state.available == false` or `state.etaEpoch <= 0` the
text is exactly `"--:--"`; else `delta = max(0, etaEpoch - now)`,
`minutes = delta / 60` (integer division), `seconds = delta % 60`, clamped to
`minutes = 99, seconds = 59` whenever `minutes > 99`, formatted as zero-padded
`MM:SS`. -/
def renderSpec (st : ArrivalState) (now : Int) : String :=
  if st.busDataAvailable = false ∨ st.nextBusEtaEpoch ≤ 0 then
    "--:--"
  else
    let delta := max 0 (st.nextBusEtaEpoch - now)
    let minutes := delta / 60
    let seconds := delta % 60
    if minutes > 99 then
      pad2 99 ++ ":" ++ pad2 59
    else
      pad2 minutes ++ ":" ++ pad2 seconds

/-- The states the shared globals can reach: the initial values, followed by
any sequence of completed fetch cycles. Because the sketch runs both tasks on
one cooperative loop, every cycle's writes are observed as a whole. -/
inductive Reachable : ArrivalState → Prop where
  | init : Reachable initialState
  | step (directionId stopId : String) (now : Int)
      (detail : String → DetailResult) (outcome : FetchOutcome)
      {st : ArrivalState} : Reachable st →
      Reachable (fetchSeptaData directionId stopId now detail outcome st)

/-! ## Helper lemmas -/

/-- The stop-times loop collects exactly the etas of the records passing the
stop/departed/future filter, in order. -/
theorem stopTimeETAs_eq_filter_map (stopId : String) (now : Int) (sts : List StopTime) :
    stopTimeETAs stopId now sts =
      (sts.filter fun st => st.stop_id == stopId && !st.departed && decide (st.eta > now)).map
        StopTime.eta := by
  induction sts with
  | nil => rfl
  | cons st rest ih =>
    cases hc : (st.stop_id == stopId && !st.departed) with
    | true =>
      by_cases he : st.eta > now
      · simp [stopTimeETAs, List.filter_cons, hc, he, ih]
      · simp [stopTimeETAs, List.filter_cons, hc, he, ih]
    | false => simp [stopTimeETAs, List.filter_cons, hc, ih]

/-- Membership in the collected stop-time etas, characterized record-wise. -/
theorem stopTimeETAs_mem_iff (stopId : String) (now : Int) (sts : List StopTime) (e : Int) :
    e ∈ stopTimeETAs stopId now sts ↔
      ∃ st ∈ sts, st.stop_id = stopId ∧ st.departed = false ∧ st.eta > now ∧ st.eta = e := by
  rw [stopTimeETAs_eq_filter_map]
  simp only [List.mem_map, List.mem_filter, Bool.and_eq_true, beq_iff_eq,
    Bool.not_eq_true', decide_eq_true_eq]
  constructor
  · rintro ⟨st, ⟨hmem, ⟨h1, h2⟩, h3⟩, h4⟩
    exact ⟨st, hmem, h1, h2, h3, h4⟩
  · rintro ⟨st, hmem, h1, h2, h3, h4⟩
    exact ⟨st, ⟨hmem, ⟨h1, h2⟩, h3⟩, h4⟩

/-- Every collected stop-time eta is strictly in the future. -/
theorem stopTimeETAs_gt (stopId : String) (now : Int) (sts : List StopTime) :
    ∀ e ∈ stopTimeETAs stopId now sts, now < e := by
  intro e he
  obtain ⟨st, -, -, -, hgt, heq⟩ := (stopTimeETAs_mem_iff stopId now sts e).1 he
  omega

/-- A trip failing the direction/status filter is passed over. -/
theorem collectETAs_cons_unqual (directionId stopId : String) (now : Int)
    (detail : String → DetailResult) (t : Trip) (rest : List Trip)
    (h : tripQualifies directionId t = false) :
    collectETAs directionId stopId now detail (t :: rest) =
      collectETAs directionId stopId now detail rest := by
  simp [collectETAs, h]

/-- A qualifying trip with a decoded detail body contributes its stop-time
etas in front of the remaining trips' contributions. -/
theorem collectETAs_cons_ok (directionId stopId : String) (now : Int)
    (detail : String → DetailResult) (t : Trip) (rest : List Trip)
    (sts : List StopTime) (hq : tripQualifies directionId t = true)
    (hd : detail t.trip_id = DetailResult.ok sts) :
    collectETAs directionId stopId now detail (t :: rest) =
      stopTimeETAs stopId now sts ++ collectETAs directionId stopId now detail rest := by
  simp [collectETAs, hq, hd]

/-- A trip whose detail request fails (non-200 or parse error) contributes
nothing, whether or not it qualifies. -/
theorem collectETAs_cons_failed (directionId stopId : String) (now : Int)
    (detail : String → DetailResult) (t : Trip) (rest : List Trip)
    (h : detail t.trip_id = DetailResult.parseFail ∨
      ∃ c, detail t.trip_id = DetailResult.httpFail c) :
    collectETAs directionId stopId now detail (t :: rest) =
      collectETAs directionId stopId now detail rest := by
  cases hq : tripQualifies directionId t with
  | true => rcases h with h | ⟨c, h⟩ <;> simp [collectETAs, hq, h]
  | false => simp [collectETAs, hq]

/-- The collected candidates of a concatenation are the concatenation of the
collected candidates. -/
theorem collectETAs_append (directionId stopId : String) (now : Int)
    (detail : String → DetailResult) (l1 l2 : List Trip) :
    collectETAs directionId stopId now detail (l1 ++ l2) =
      collectETAs directionId stopId now detail l1 ++
        collectETAs directionId stopId now detail l2 := by
  induction l1 with
  | nil => rfl
  | cons t rest ih =>
    cases hq : tripQualifies directionId t with
    | true =>
      cases hd : detail t.trip_id with
      | ok sts => simp [collectETAs, hq, hd, ih, List.append_assoc]
      | parseFail => simp [collectETAs, hq, hd, ih]
      | httpFail c => simp [collectETAs, hq, hd, ih]
    | false => simp [collectETAs, hq, ih]

/-- Every collected candidate eta is strictly in the future. -/
theorem collectETAs_gt (directionId stopId : String) (now : Int)
    (detail : String → DetailResult) (trips : List Trip) :
    ∀ e ∈ collectETAs directionId stopId now detail trips, now < e := by
  induction trips with
  | nil => intro e he; cases he
  | cons t rest ih =>
    intro e he
    cases hq : tripQualifies directionId t with
    | true =>
      cases hd : detail t.trip_id with
      | ok sts =>
        rw [collectETAs_cons_ok directionId stopId now detail t rest sts hq hd,
          List.mem_append] at he
        rcases he with he | he
        · exact stopTimeETAs_gt stopId now sts e he
        · exact ih e he
      | parseFail =>
        rw [collectETAs_cons_failed directionId stopId now detail t rest (Or.inl hd)] at he
        exact ih e he
      | httpFail c =>
        rw [collectETAs_cons_failed directionId stopId now detail t rest (Or.inr ⟨c, hd⟩)] at he
        exact ih e he
    | false =>
      rw [collectETAs_cons_unqual directionId stopId now detail t rest hq] at he
      exact ih e he

/-- An unqualified trip triggers no detail request. -/
theorem requestedTrips_cons_unqual (directionId : String) (t : Trip) (rest : List Trip)
    (h : tripQualifies directionId t = false) :
    requestedTrips directionId (t :: rest) = requestedTrips directionId rest := by
  simp [requestedTrips, h]

/-- The detail requests of a concatenation are the concatenation of the
detail requests. -/
theorem requestedTrips_append (directionId : String) (l1 l2 : List Trip) :
    requestedTrips directionId (l1 ++ l2) =
      requestedTrips directionId l1 ++ requestedTrips directionId l2 := by
  induction l1 with
  | nil => rfl
  | cons t rest ih =>
    cases hq : tripQualifies directionId t with
    | true => simp [requestedTrips, hq, ih]
    | false => simp [requestedTrips, hq, ih]

/-- `processSeptaData` on an empty sorted candidate list publishes the
unavailable triple and returns 0. -/
theorem processSeptaData_sort_nil (directionId stopId : String) (now : Int)
    (detail : String → DetailResult) (trips : List Trip)
    (h : List.insertionSort (fun a b => a ≤ b)
      (collectETAs directionId stopId now detail trips) = []) :
    processSeptaData directionId stopId now detail trips = (unavailableState, 0) := by
  unfold processSeptaData
  rw [h]

/-- `processSeptaData` on a non-empty sorted candidate list publishes the
front of the sorted list with its rounded-up minute count. -/
theorem processSeptaData_sort_cons (directionId stopId : String) (now : Int)
    (detail : String → DetailResult) (trips : List Trip) (soonest : Int) (rest : List Int)
    (h : List.insertionSort (fun a b => a ≤ b)
      (collectETAs directionId stopId now detail trips) = soonest :: rest) :
    processSeptaData directionId stopId now detail trips =
      (⟨true, soonest, (soonest - now + 59) / 60⟩, soonest) := by
  unfold processSeptaData
  rw [h]

/-- The head of the ascending insertion sort of a list of integers is a
member of the list and a lower bound for it. -/
theorem insertionSort_head_min (l : List Int) (soonest : Int) (rest : List Int)
    (h : List.insertionSort (fun a b => a ≤ b) l = soonest :: rest) :
    soonest ∈ l ∧ ∀ e ∈ l, soonest ≤ e := by
  have hs := List.sorted_insertionSort (fun a b => a ≤ b) l
  rw [h] at hs
  constructor
  · have hm : soonest ∈ List.insertionSort (fun a b => a ≤ b) l := by
      rw [h]; exact List.mem_cons_self _ _
    exact (List.mem_insertionSort _).1 hm
  · intro e he
    have hm : e ∈ soonest :: rest := by
      rw [← h]; exact (List.mem_insertionSort _).2 he
    rcases List.mem_cons.mp hm with h1 | h1
    · exact le_of_eq h1.symm
    · exact List.rel_of_sorted_cons hs e h1

/-- `"%02d"` produces exactly two characters on 0 through 99. -/
theorem pad2_length (n : Int) (h0 : 0 ≤ n) (h99 : n ≤ 99) : (pad2 n).length = 2 := by
  interval_cases n <;> decide

/-- A `"%02d:%02d"` string over two-digit-range values has five characters. -/
theorem pad2_colon_length (a b : Int) (ha0 : 0 ≤ a) (ha : a ≤ 99) (hb0 : 0 ≤ b) (hb : b ≤ 99) :
    (pad2 a ++ ":" ++ pad2 b).length = 5 := by
  rw [String.length_append, String.length_append,
    pad2_length a ha0 ha, pad2_length b hb0 hb]
  rfl

/-- The rendered string equals the spec-side renderer on every input. -/
theorem updateDisplay_eq_renderSpec (st : ArrivalState) (now : Int) :
    updateDisplay st now = renderSpec st now := by
  obtain ⟨avail, eta, m⟩ := st
  cases avail with
  | false => rfl
  | true =>
    by_cases he : (0 : Int) < eta
    · have h1 : (true && decide (eta > 0)) = true := by simp [he]
      have h2 : ¬(true = false ∨ eta ≤ 0) := by
        push_neg
        exact ⟨fun hcontra => Bool.noConfusion hcontra, he⟩
      unfold updateDisplay renderSpec
      rw [if_pos h1, if_neg h2]
      have hd : (if eta - now < 0 then (0 : Int) else eta - now) = max 0 (eta - now) := by
        rcases le_or_lt 0 (eta - now) with hcase | hcase
        · rw [if_neg (by omega), max_eq_right hcase]
        · rw [if_pos hcase, max_eq_left (by omega)]
      simp only [hd]
    · have h1 : ¬((true && decide (eta > 0)) = true) := by simp [he]
      have h2 : (true = false ∨ eta ≤ 0) := Or.inr (by omega)
      unfold updateDisplay renderSpec
      rw [if_neg h1, if_pos h2]

/-- The rendered string always has exactly five characters. -/
theorem updateDisplay_length (st : ArrivalState) (now : Int) :
    (updateDisplay st now).length = 5 := by
  obtain ⟨avail, eta, m⟩ := st
  cases avail with
  | false => rfl
  | true =>
    by_cases he : (0 : Int) < eta
    · have h1 : (true && decide (eta > 0)) = true := by simp [he]
      unfold updateDisplay
      rw [if_pos h1]
      show (if (if eta - now < 0 then (0 : Int) else eta - now) / 60 > 99 then
            pad2 99 ++ ":" ++ pad2 59
          else
            pad2 ((if eta - now < 0 then (0 : Int) else eta - now) / 60) ++ ":" ++
              pad2 ((if eta - now < 0 then (0 : Int) else eta - now) % 60)).length = 5
      set d : Int := if eta - now < 0 then (0 : Int) else eta - now with hdef
      have hd0 : 0 ≤ d := by rw [hdef]; split <;> omega
      by_cases h99 : d / 60 > 99
      · rw [if_pos h99]; decide
      · rw [if_neg h99]
        exact pad2_colon_length (d / 60) (d % 60)
          (by omega) (by omega) (by omega) (by omega)
    · have h1 : ¬((true && decide (eta > 0)) = true) := by simp [he]
      unfold updateDisplay
      rw [if_neg h1]
      rfl

/-- Closed form of the rendered string in the in-range available case. -/
theorem updateDisplay_formula (e m now : Int) (hpos : 0 < e)
    (h0 : 0 ≤ e - now) (h99 : (e - now) / 60 ≤ 99) :
    updateDisplay ⟨true, e, m⟩ now =
      pad2 ((e - now) / 60) ++ ":" ++ pad2 ((e - now) % 60) := by
  have h1 : (true && decide (e > 0)) = true := by simp [hpos]
  unfold updateDisplay
  rw [if_pos h1]
  show (if (if e - now < 0 then (0 : Int) else e - now) / 60 > 99 then
        pad2 99 ++ ":" ++ pad2 59
      else
        pad2 ((if e - now < 0 then (0 : Int) else e - now) / 60) ++ ":" ++
          pad2 ((if e - now < 0 then (0 : Int) else e - now) % 60)) =
    pad2 ((e - now) / 60) ++ ":" ++ pad2 ((e - now) % 60)
  rw [if_neg (by omega : ¬(e - now < 0)), if_neg (by omega : ¬((e - now) / 60 > 99))]

/-- The trip filter, written out as propositional equalities of strings. -/
theorem tripQualifies_iff (directionId : String) (t : Trip) :
    tripQualifies directionId t = true ↔
      t.direction_id = directionId ∧ t.status ≠ "CANCELED" ∧ t.status ≠ "NO GPS" := by
  simp [tripQualifies, and_assoc]

/-! ## Claim theorems -/

/-- C1: For every fetch cycle whose candidate set is non-empty, the resolver
publishes `available = true` with `etaEpoch` equal to the minimum of all
collected candidate etas and `etaMinutes` equal to the integer ceiling of
`(etaEpoch - now) / 60` (characterized as the least integer `k` with
`etaEpoch - now ≤ 60 * k`), where `now` is the snapshot taken at the start
of processing. -/
theorem resolver_publishes_min_eta (directionId stopId : String) (now : Int)
    (detail : String → DetailResult) (trips : List Trip)
    (hne : collectETAs directionId stopId now detail trips ≠ []) :
    (processSeptaData directionId stopId now detail trips).1.busDataAvailable = true ∧
    (processSeptaData directionId stopId now detail trips).1.nextBusEtaEpoch ∈
      collectETAs directionId stopId now detail trips ∧
    (∀ e ∈ collectETAs directionId stopId now detail trips,
      (processSeptaData directionId stopId now detail trips).1.nextBusEtaEpoch ≤ e) ∧
    (processSeptaData directionId stopId now detail trips).1.nextBusEtaEpoch - now ≤
      60 * (processSeptaData directionId stopId now detail trips).1.nextBusMinutes ∧
    60 * ((processSeptaData directionId stopId now detail trips).1.nextBusMinutes - 1) <
      (processSeptaData directionId stopId now detail trips).1.nextBusEtaEpoch - now := by
  cases hsort : List.insertionSort (fun a b => a ≤ b)
      (collectETAs directionId stopId now detail trips) with
  | nil =>
    have hp := List.perm_insertionSort (fun a b => a ≤ b)
      (collectETAs directionId stopId now detail trips)
    rw [hsort] at hp
    exact absurd hp.symm.eq_nil hne
  | cons soonest rest =>
    have heq := processSeptaData_sort_cons directionId stopId now detail trips soonest rest hsort
    have hmin := insertionSort_head_min
      (collectETAs directionId stopId now detail trips) soonest rest hsort
    rw [heq]
    refine ⟨rfl, hmin.1, hmin.2, ?_, ?_⟩
    · show soonest - now ≤ 60 * ((soonest - now + 59) / 60)
      omega
    · show 60 * ((soonest - now + 59) / 60 - 1) < soonest - now
      omega

/-- Witness for C1 at a concrete cycle: one qualifying trip with two future
stop-time candidates, 100 and 220, at `now = 0`. -/
theorem resolver_publishes_min_eta_witness :
    (collectETAs "0" "S1" 0
      (fun _ => DetailResult.ok [⟨"S1", false, 100⟩, ⟨"S1", false, 220⟩])
      [⟨"A", "0", "OK"⟩] ≠ []) ∧
    ((processSeptaData "0" "S1" 0
        (fun _ => DetailResult.ok [⟨"S1", false, 100⟩, ⟨"S1", false, 220⟩])
        [⟨"A", "0", "OK"⟩]).1.busDataAvailable = true ∧
      (processSeptaData "0" "S1" 0
        (fun _ => DetailResult.ok [⟨"S1", false, 100⟩, ⟨"S1", false, 220⟩])
        [⟨"A", "0", "OK"⟩]).1.nextBusEtaEpoch ∈
        collectETAs "0" "S1" 0
          (fun _ => DetailResult.ok [⟨"S1", false, 100⟩, ⟨"S1", false, 220⟩])
          [⟨"A", "0", "OK"⟩] ∧
      (∀ e ∈ collectETAs "0" "S1" 0
          (fun _ => DetailResult.ok [⟨"S1", false, 100⟩, ⟨"S1", false, 220⟩])
          [⟨"A", "0", "OK"⟩],
        (processSeptaData "0" "S1" 0
          (fun _ => DetailResult.ok [⟨"S1", false, 100⟩, ⟨"S1", false, 220⟩])
          [⟨"A", "0", "OK"⟩]).1.nextBusEtaEpoch ≤ e) ∧
      (processSeptaData "0" "S1" 0
        (fun _ => DetailResult.ok [⟨"S1", false, 100⟩, ⟨"S1", false, 220⟩])
        [⟨"A", "0", "OK"⟩]).1.nextBusEtaEpoch - 0 ≤
        60 * (processSeptaData "0" "S1" 0
          (fun _ => DetailResult.ok [⟨"S1", false, 100⟩, ⟨"S1", false, 220⟩])
          [⟨"A", "0", "OK"⟩]).1.nextBusMinutes ∧
      60 * ((processSeptaData "0" "S1" 0
          (fun _ => DetailResult.ok [⟨"S1", false, 100⟩, ⟨"S1", false, 220⟩])
          [⟨"A", "0", "OK"⟩]).1.nextBusMinutes - 1) <
        (processSeptaData "0" "S1" 0
          (fun _ => DetailResult.ok [⟨"S1", false, 100⟩, ⟨"S1", false, 220⟩])
          [⟨"A", "0", "OK"⟩]).1.nextBusEtaEpoch - 0) :=
  ⟨by decide, resolver_publishes_min_eta "0" "S1" 0
    (fun _ => DetailResult.ok [⟨"S1", false, 100⟩, ⟨"S1", false, 220⟩])
    [⟨"A", "0", "OK"⟩] (by decide)⟩

/-- C2: The renderer shows exactly `"--:--"` when `available` is false or
`etaEpoch ≤ 0`; otherwise it shows the spec's clamped zero-padded `MM:SS`
(always 5 characters); in particular zero and negative deltas render
`"00:00"`, and a delta of 9000 seconds (150 minutes) renders `"99:59"`. -/
theorem renderer_matches_spec :
    (∀ (st : ArrivalState) (now : Int), updateDisplay st now = renderSpec st now) ∧
    (∀ (st : ArrivalState) (now : Int), (updateDisplay st now).length = 5) ∧
    updateDisplay ⟨true, 100, 2⟩ 100 = "00:00" ∧
    updateDisplay ⟨true, 100, 2⟩ 250 = "00:00" ∧
    updateDisplay ⟨true, 9100, 150⟩ 100 = "99:59" ∧
    updateDisplay ⟨false, 0, -1⟩ 0 = "--:--" ∧
    updateDisplay ⟨true, 0, 0⟩ 0 = "--:--" ∧
    updateDisplay ⟨true, 523, 2⟩ 100 = "07:03" :=
  ⟨updateDisplay_eq_renderSpec, updateDisplay_length,
    by decide, by decide, by decide, by decide, by decide, by decide⟩

/-- C5: A stop-time record's eta is collected iff its stop id equals the
configured stop, it has not departed, and its eta is strictly greater than
`now`; and every value `≤ now` is absent from the collected candidates. -/
theorem stop_time_filter_iff (stopId : String) (now : Int) (sts : List StopTime) (e : Int) :
    (e ∈ stopTimeETAs stopId now sts ↔
      ∃ st ∈ sts, st.stop_id = stopId ∧ st.departed = false ∧ st.eta > now ∧ st.eta = e) ∧
    (e ≤ now → e ∉ stopTimeETAs stopId now sts) := by
  refine ⟨stopTimeETAs_mem_iff stopId now sts e, fun hle hmem => ?_⟩
  have := stopTimeETAs_gt stopId now sts e hmem
  omega

/-- Witness for C5 at a concrete stop-time list and value. -/
theorem stop_time_filter_iff_witness :
    ((100 : Int) ∈ stopTimeETAs "S1" 0 [⟨"S1", false, 100⟩] ↔
      ∃ st ∈ [(⟨"S1", false, 100⟩ : StopTime)],
        st.stop_id = "S1" ∧ st.departed = false ∧ st.eta > 0 ∧ st.eta = 100) ∧
    ((100 : Int) ≤ 0 → (100 : Int) ∉ stopTimeETAs "S1" 0 [⟨"S1", false, 100⟩]) :=
  stop_time_filter_iff "S1" 0 [⟨"S1", false, 100⟩] 100

/-- C9: The trip status filter is an exact, case-sensitive comparison against
`"CANCELED"` and `"NO GPS"`: a direction-matching trip qualifies iff its
status differs character-for-character from both; other spellings or casings
such as `"canceled"`, `"Canceled"`, `"NO_GPS"` pass the filter and can
contribute candidates. -/
theorem status_filter_exact :
    (∀ (directionId : String) (t : Trip),
      tripQualifies directionId t = true ↔
        t.direction_id = directionId ∧ t.status ≠ "CANCELED" ∧ t.status ≠ "NO GPS") ∧
    tripQualifies "0" ⟨"T1", "0", "canceled"⟩ = true ∧
    tripQualifies "0" ⟨"T1", "0", "Canceled"⟩ = true ∧
    tripQualifies "0" ⟨"T1", "0", "NO_GPS"⟩ = true ∧
    tripQualifies "0" ⟨"T1", "0", "CANCELED"⟩ = false ∧
    tripQualifies "0" ⟨"T1", "0", "NO GPS"⟩ = false ∧
    tripQualifies "1" ⟨"T1", "0", "OK"⟩ = false ∧
    collectETAs "0" "S2" 50 (fun _ => DetailResult.ok [⟨"S2", false, 80⟩])
      [⟨"T1", "0", "canceled"⟩] = [80] := by
  exact ⟨tripQualifies_iff, by decide, by decide, by decide, by decide, by decide,
    by decide, by decide⟩

/-- C10: Every published state with `available = true` has `etaMinutes ≥ 1`
and `etaEpoch > now` for the cycle's `now` snapshot: candidates are strictly
future and minutes are rounded up, so the minute count is never 0. -/
theorem available_minutes_positive (directionId stopId : String) (now : Int)
    (detail : String → DetailResult) (trips : List Trip)
    (h : (processSeptaData directionId stopId now detail trips).1.busDataAvailable = true) :
    1 ≤ (processSeptaData directionId stopId now detail trips).1.nextBusMinutes ∧
    now < (processSeptaData directionId stopId now detail trips).1.nextBusEtaEpoch := by
  cases hsort : List.insertionSort (fun a b => a ≤ b)
      (collectETAs directionId stopId now detail trips) with
  | nil =>
    rw [processSeptaData_sort_nil directionId stopId now detail trips hsort] at h
    exact Bool.noConfusion h
  | cons soonest rest =>
    have heq := processSeptaData_sort_cons directionId stopId now detail trips soonest rest hsort
    have hmem := (insertionSort_head_min
      (collectETAs directionId stopId now detail trips) soonest rest hsort).1
    have hgt := collectETAs_gt directionId stopId now detail trips soonest hmem
    rw [heq]
    constructor
    · show 1 ≤ (soonest - now + 59) / 60
      omega
    · exact hgt

/-- Witness for C10 at a concrete cycle with one candidate 30 seconds out. -/
theorem available_minutes_positive_witness :
    ((processSeptaData "0" "S1" 0 (fun _ => DetailResult.ok [⟨"S1", false, 30⟩])
      [⟨"A", "0", "OK"⟩]).1.busDataAvailable = true) ∧
    (1 ≤ (processSeptaData "0" "S1" 0 (fun _ => DetailResult.ok [⟨"S1", false, 30⟩])
        [⟨"A", "0", "OK"⟩]).1.nextBusMinutes ∧
      (0 : Int) < (processSeptaData "0" "S1" 0 (fun _ => DetailResult.ok [⟨"S1", false, 30⟩])
        [⟨"A", "0", "OK"⟩]).1.nextBusEtaEpoch) :=
  ⟨by decide, available_minutes_positive "0" "S1" 0
    (fun _ => DetailResult.ok [⟨"S1", false, 30⟩]) [⟨"A", "0", "OK"⟩] (by decide)⟩

/-- C3 counterexample: starting from a state whose countdown renders
`"01:40"`, one failed top-level fetch (HTTP 500) leaves the Shared Arrival
State overwritten with the unavailable triple, not the previous value, and
the next render shows `"--:--"`. -/
theorem fetch_failure_cex :
    updateDisplay ⟨true, 1100, 2⟩ 1000 = "01:40" ∧
    fetchSeptaData "0" "21514" 1000 (fun _ => DetailResult.parseFail)
        (FetchOutcome.httpFail 500) ⟨true, 1100, 2⟩ = ⟨false, 0, -1⟩ ∧
    fetchSeptaData "0" "21514" 1000 (fun _ => DetailResult.parseFail)
        (FetchOutcome.httpFail 500) ⟨true, 1100, 2⟩ ≠ ⟨true, 1100, 2⟩ ∧
    updateDisplay (fetchSeptaData "0" "21514" 1000 (fun _ => DetailResult.parseFail)
        (FetchOutcome.httpFail 500) ⟨true, 1100, 2⟩) 1001 = "--:--" := by
  decide

/-- C3 as amended: on every failing fetch cycle (Wi-Fi down, non-200 HTTP
status, empty payload, or malformed top-level body) the Shared Arrival State
is explicitly overwritten with the unavailable triple in that same cycle —
regardless of the previous state — and the renderer consequently shows
`"--:--"` at the next refresh. -/
theorem fetch_failure_overwrites (directionId stopId : String) (now rnow : Int)
    (detail : String → DetailResult) (outcome : FetchOutcome) (prev : ArrivalState)
    (h : ∀ trips, outcome ≠ FetchOutcome.ok trips) :
    fetchSeptaData directionId stopId now detail outcome prev = unavailableState ∧
    updateDisplay (fetchSeptaData directionId stopId now detail outcome prev) rnow =
      "--:--" := by
  cases outcome with
  | noWifi => exact ⟨rfl, rfl⟩
  | httpFail c => exact ⟨rfl, rfl⟩
  | emptyBody => exact ⟨rfl, rfl⟩
  | parseFail => exact ⟨rfl, rfl⟩
  | ok trips => exact absurd rfl (h trips)

/-- Witness for the amended C3 on a concrete failed cycle (HTTP 404). -/
theorem fetch_failure_overwrites_witness :
    (∀ trips, FetchOutcome.httpFail 404 ≠ FetchOutcome.ok trips) ∧
    (fetchSeptaData "0" "21514" 5 (fun _ => DetailResult.parseFail)
        (FetchOutcome.httpFail 404) ⟨true, 99, 2⟩ = unavailableState ∧
      updateDisplay (fetchSeptaData "0" "21514" 5 (fun _ => DetailResult.parseFail)
        (FetchOutcome.httpFail 404) ⟨true, 99, 2⟩) 6 = "--:--") :=
  ⟨fun _ hcontra => FetchOutcome.noConfusion hcontra,
    fetch_failure_overwrites "0" "21514" 5 6 (fun _ => DetailResult.parseFail)
      (FetchOutcome.httpFail 404) ⟨true, 99, 2⟩
      (fun _ hcontra => FetchOutcome.noConfusion hcontra)⟩

/-- C4 counterexample: in the claimed scenario (single qualifying trip, one
stop-time at the configured stop with `eta = now + 185`, here `now = 1000`),
the resolver does publish `available = true` and `etaMinutes = 4`, but the
render one second later shows `"03:04"`, not `"03:05"` as claimed. -/
theorem scenario_one_second_cex :
    (processSeptaData "0" "S1" 1000 (fun _ => DetailResult.ok [⟨"S1", false, 1185⟩])
      [⟨"A", "0", "OK"⟩]).1.busDataAvailable = true ∧
    (processSeptaData "0" "S1" 1000 (fun _ => DetailResult.ok [⟨"S1", false, 1185⟩])
      [⟨"A", "0", "OK"⟩]).1.nextBusMinutes = 4 ∧
    updateDisplay (processSeptaData "0" "S1" 1000
      (fun _ => DetailResult.ok [⟨"S1", false, 1185⟩]) [⟨"A", "0", "OK"⟩]).1 1001 =
      "03:04" ∧
    ("03:04" : String) ≠ "03:05" := by
  decide

/-- C4 as amended: for the scenario — trips list `[{id:"A", dir:"0",
status:"OK"}]`, trip A's stop-times `[{stop:"S1", departed:false,
eta: now+185}]`, configured stop `"S1"` and direction `"0"` — the resolver
yields `available = true` with `etaEpoch = now + 185` and `etaMinutes = 4`
(the ceiling of 185/60), and the renderer invoked one second later displays
`"03:04"` (185 seconds render as `"03:05"` at the snapshot itself; one
second later 184 seconds remain). -/
theorem scenario_one_second_amended (now : Int) (h : 0 ≤ now) :
    (processSeptaData "0" "S1" now
      (fun _ => DetailResult.ok [⟨"S1", false, now + 185⟩]) [⟨"A", "0", "OK"⟩]).1 =
      ⟨true, now + 185, 4⟩ ∧
    updateDisplay ⟨true, now + 185, 4⟩ (now + 1) = "03:04" := by
  have hgt : now + 185 > now := by omega
  have hst : stopTimeETAs "S1" now [⟨"S1", false, now + 185⟩] = [now + 185] := by
    simp [stopTimeETAs, hgt]
  have hc : collectETAs "0" "S1" now
      (fun _ => DetailResult.ok [⟨"S1", false, now + 185⟩]) [⟨"A", "0", "OK"⟩] =
      [now + 185] := by
    rw [collectETAs_cons_ok "0" "S1" now
        (fun _ => DetailResult.ok [⟨"S1", false, now + 185⟩])
        ⟨"A", "0", "OK"⟩ [] [⟨"S1", false, now + 185⟩] (by decide) rfl, hst]
    rfl
  have heq := processSeptaData_sort_cons "0" "S1" now
    (fun _ => DetailResult.ok [⟨"S1", false, now + 185⟩]) [⟨"A", "0", "OK"⟩]
    (now + 185) [] (by rw [hc]; rfl)
  constructor
  · rw [heq]
    show (⟨true, now + 185, (now + 185 - now + 59) / 60⟩ : ArrivalState) =
      ⟨true, now + 185, 4⟩
    have h4 : (now + 185 - now + 59) / 60 = 4 := by omega
    rw [h4]
  · have hf := updateDisplay_formula (now + 185) 4 (now + 1)
      (by omega) (by omega) (by omega)
    rw [hf]
    have h184 : now + 185 - (now + 1) = 184 := by omega
    rw [h184]
    decide

/-- Witness for the amended C4 at `now = 1000`. -/
theorem scenario_one_second_amended_witness :
    ((0 : Int) ≤ 1000) ∧
    ((processSeptaData "0" "S1" 1000
        (fun _ => DetailResult.ok [⟨"S1", false, 1000 + 185⟩]) [⟨"A", "0", "OK"⟩]).1 =
        ⟨true, 1000 + 185, 4⟩ ∧
      updateDisplay ⟨true, 1000 + 185, 4⟩ (1000 + 1) = "03:04") :=
  ⟨by decide, scenario_one_second_amended 1000 (by decide)⟩

/-- C6: A trip whose status is `"CANCELED"` or `"NO GPS"`, or whose direction
differs from the configured direction, contributes no candidate eta wherever
it sits in the trips list, and no detail request is issued for it. -/
theorem unqualified_trip_never_contributes (directionId stopId : String) (now : Int)
    (detail : String → DetailResult) (t : Trip) (pre rest : List Trip)
    (h : t.direction_id ≠ directionId ∨ t.status = "CANCELED" ∨ t.status = "NO GPS") :
    collectETAs directionId stopId now detail (pre ++ t :: rest) =
      collectETAs directionId stopId now detail (pre ++ rest) ∧
    requestedTrips directionId (pre ++ t :: rest) =
      requestedTrips directionId (pre ++ rest) := by
  have hq : tripQualifies directionId t = false := by
    rcases Bool.eq_false_or_eq_true (tripQualifies directionId t) with hb | hb
    · exfalso
      obtain ⟨h1, h2, h3⟩ := (tripQualifies_iff directionId t).1 hb
      rcases h with hcontra | hcontra | hcontra
      · exact hcontra h1
      · exact h2 hcontra
      · exact h3 hcontra
    · exact hb
  rw [collectETAs_append, collectETAs_append, requestedTrips_append, requestedTrips_append,
    collectETAs_cons_unqual directionId stopId now detail t rest hq,
    requestedTrips_cons_unqual directionId t rest hq]
  exact ⟨rfl, rfl⟩

/-- Witness for C6: a `"CANCELED"` trip with a matching, future stop-time. -/
theorem unqualified_trip_never_contributes_witness :
    ((Trip.mk "B" "0" "CANCELED").direction_id ≠ "0" ∨
      (Trip.mk "B" "0" "CANCELED").status = "CANCELED" ∨
      (Trip.mk "B" "0" "CANCELED").status = "NO GPS") ∧
    (collectETAs "0" "S1" 0 (fun _ => DetailResult.ok [⟨"S1", false, 100⟩])
        ([] ++ ⟨"B", "0", "CANCELED"⟩ :: []) =
      collectETAs "0" "S1" 0 (fun _ => DetailResult.ok [⟨"S1", false, 100⟩]) ([] ++ []) ∧
      requestedTrips "0" ([] ++ ⟨"B", "0", "CANCELED"⟩ :: []) =
        requestedTrips "0" ([] ++ [])) :=
  ⟨Or.inr (Or.inl rfl),
    unqualified_trip_never_contributes "0" "S1" 0
      (fun _ => DetailResult.ok [⟨"S1", false, 100⟩]) ⟨"B", "0", "CANCELED"⟩ [] []
      (Or.inr (Or.inl rfl))⟩

/-- C7: A per-trip detail failure (non-200 HTTP or malformed body) skips only
that trip — the candidates of the surrounding trips are unaffected — and when
the failing trip is the only qualifying trip the cycle concludes with the
unavailable state rather than aborting. -/
theorem detail_failure_skips_only_trip (directionId stopId : String) (now : Int)
    (detail : String → DetailResult) (t : Trip) (pre rest : List Trip)
    (h : detail t.trip_id = DetailResult.parseFail ∨
      ∃ c, detail t.trip_id = DetailResult.httpFail c) :
    collectETAs directionId stopId now detail (pre ++ t :: rest) =
      collectETAs directionId stopId now detail pre ++
        collectETAs directionId stopId now detail rest ∧
    (tripQualifies directionId t = true →
      (processSeptaData directionId stopId now detail [t]).1 = unavailableState) := by
  constructor
  · rw [collectETAs_append,
      collectETAs_cons_failed directionId stopId now detail t rest h]
  · intro _
    have hc : collectETAs directionId stopId now detail [t] = [] :=
      collectETAs_cons_failed directionId stopId now detail t [] h
    rw [processSeptaData_sort_nil directionId stopId now detail [t] (by rw [hc]; rfl)]

/-- Witness for C7: the only qualifying trip's detail request fails to
parse. -/
theorem detail_failure_skips_only_trip_witness :
    ((fun (_ : String) => DetailResult.parseFail) (Trip.mk "A" "0" "OK").trip_id =
        DetailResult.parseFail ∨
      ∃ c, (fun (_ : String) => DetailResult.parseFail) (Trip.mk "A" "0" "OK").trip_id =
        DetailResult.httpFail c) ∧
    (collectETAs "0" "S1" 0 (fun _ => DetailResult.parseFail)
        ([] ++ ⟨"A", "0", "OK"⟩ :: []) =
      collectETAs "0" "S1" 0 (fun _ => DetailResult.parseFail) [] ++
        collectETAs "0" "S1" 0 (fun _ => DetailResult.parseFail) [] ∧
      (tripQualifies "0" ⟨"A", "0", "OK"⟩ = true →
        (processSeptaData "0" "S1" 0 (fun _ => DetailResult.parseFail)
          [⟨"A", "0", "OK"⟩]).1 = unavailableState)) :=
  ⟨Or.inl rfl,
    detail_failure_skips_only_trip "0" "S1" 0 (fun _ => DetailResult.parseFail)
      ⟨"A", "0", "OK"⟩ [] [] (Or.inl rfl)⟩

/-- C8: In every reachable Shared Arrival State, `available = false` implies
`etaEpoch = 0` and `etaMinutes = -1`. Each fetch cycle is modelled as a pure
function from the previous complete triple to the next complete triple, so a
reader always observes one of the two — the single cooperative loop of the
sketch never interleaves a read with the three assignments. -/
theorem shared_state_invariant (st : ArrivalState) (h : Reachable st) :
    st.busDataAvailable = false → st.nextBusEtaEpoch = 0 ∧ st.nextBusMinutes = -1 := by
  induction h with
  | init => intro _; exact ⟨rfl, rfl⟩
  | step directionId stopId now detail outcome hst ih =>
    cases outcome with
    | noWifi => intro _; exact ⟨rfl, rfl⟩
    | httpFail c => intro _; exact ⟨rfl, rfl⟩
    | emptyBody => intro _; exact ⟨rfl, rfl⟩
    | parseFail => intro _; exact ⟨rfl, rfl⟩
    | ok trips =>
      intro hfalse
      cases hsort : List.insertionSort (fun a b => a ≤ b)
          (collectETAs directionId stopId now detail trips) with
      | nil =>
        show (processSeptaData directionId stopId now detail trips).1.nextBusEtaEpoch = 0 ∧
          (processSeptaData directionId stopId now detail trips).1.nextBusMinutes = -1
        rw [processSeptaData_sort_nil directionId stopId now detail trips hsort]
        exact ⟨rfl, rfl⟩
      | cons soonest rest =>
        exfalso
        have hfalse2 : (processSeptaData directionId stopId now detail trips).1.busDataAvailable =
          false := hfalse
        rw [processSeptaData_sort_cons directionId stopId now detail trips
          soonest rest hsort] at hfalse2
        exact Bool.noConfusion hfalse2

/-- Witness for C8 at the initial state. -/
theorem shared_state_invariant_witness :
    Reachable initialState ∧
    (initialState.busDataAvailable = false →
      initialState.nextBusEtaEpoch = 0 ∧ initialState.nextBusMinutes = -1) :=
  ⟨Reachable.init, shared_state_invariant initialState Reachable.init⟩

end BusMonitor
